import Mathlib

/-!
Verification of the Clone Hero content-ingestion core.

Shallow embedding of the content-ingestion subsystem of the repository
(`src/services/content_utils.py`, `src/services/content_manager.py`,
`src/services/song_generator.py`) together with proofs checking the
natural-language specification against it.

Conventions:
* Python strings are Lean `String`s; beat times (Python floats holding
  decimal fractions) are embedded as `ℚ`.
* Filesystem paths are POSIX: an archive entry name is kept as the pair
  of its absolute-flag and its `/`-separated components.
* Fallible code is embedded with `Option`/sum results mirroring the
  Python functions' `{"error": ...}` dictionaries and sentinel values.
-/

namespace CloneHero

/-! ## Archive entry paths and CPython `zipfile` extraction

`extract_archive` (content_utils.py lines 46-71) delegates entirely to
`zipfile.ZipFile.extractall` / `rarfile.RarFile.extractall`.  Neither the
repository code nor those calls reject an entry for containing `..` or for
being absolute; instead CPython's `ZipFile._extract_member` sanitizes each
member name before writing: the name is split on the path separator and
every component that is empty, `.` or `..` is dropped, the rest are joined
below the target directory (`rarfile` performs the same sanitization).
We embed an entry name as its parsed form: whether the name was absolute
plus its list of components. -/

/-- An archive member name, parsed: `absolute` records a leading `/`,
`components` the `/`-separated pieces of the name. -/
structure EntryPath where
  absolute : Bool
  components : List String
deriving DecidableEq, Repr

/-- Whether the member name contains a parent-directory segment. -/
def EntryPath.hasParentSegment (p : EntryPath) : Bool :=
  p.components.contains ".."

/-- CPython `ZipFile._extract_member` name sanitization: drop every
component that is empty, `"."` or `".."`; the result is joined relative
to the extraction directory (absoluteness is discarded). -/
def sanitizeMemberPath (p : EntryPath) : List String :=
  p.components.filter (fun x => x ≠ "" && x ≠ "." && x ≠ "..")

/-- An archive as handed to `extract_archive`: its member names and, for
RAR input, whether the library reports a missing first volume. -/
structure Archive where
  entries : List EntryPath
  needFirstVolume : Bool
deriving Repr

/-- Result of `extract_archive`: either the list of paths written inside
the extraction directory (each a component list relative to it), or the
`{"error": msg}` dictionary the Python function returns. -/
inductive ExtractArchiveResult where
  | success (written : List (List String))
  | error (msg : String)
deriving DecidableEq, Repr

/-- Embeds `extract_archive(file_path, extract_dir, file_ext)`
(content_utils.py lines 46-71): `.zip` extracts all members, `.rar`
first fails on a multi-volume archive, anything else is unsupported.
Every written member name passes through the library sanitization. -/
def extract_archive (file_ext : String) (ar : Archive) : ExtractArchiveResult :=
  if file_ext = ".zip" then
    .success (ar.entries.map sanitizeMemberPath)
  else if file_ext = ".rar" then
    if ar.needFirstVolume then
      .error "Multi-part RAR archives are not supported"
    else
      .success (ar.entries.map sanitizeMemberPath)
  else
    .error "Unsupported file format"

/-! ## Chart synthesis (`song_generator.py`)

`generate_notes_chart` (lines 28-39) writes the chart document: a header
block, then one sync line per beat, each timestamp computed by Python's
`int(time * 1000)`, which truncates toward zero. -/

/-- Python `int()` applied to a rational: truncation toward zero
(`Int.tdiv` is T-division, matching CPython). -/
def pyInt (q : ℚ) : ℤ :=
  Int.tdiv q.num q.den

/-- The header block written by `generate_notes_chart`:
`f"[Song]\n{{\n  Name = {song_name}\n  Artist = Unknown\n  Charter = AI\n}}\n"`. -/
def chartHeader (song_name : String) : String :=
  "[Song]\n\x7b\n  Name = " ++ song_name ++ "\n  Artist = Unknown\n  Charter = AI\n\x7d\n"

/-- One sync-track line: `f"  {int(time * 1000)} = TS {int(time * 1000)}\n"`. -/
def syncLine (t : ℚ) : String :=
  "  " ++ toString (pyInt (t * 1000)) ++ " = TS " ++ toString (pyInt (t * 1000)) ++ "\n"

/-- Embeds `generate_notes_chart(song_name, beat_times, output_path)`: the full
text written to `notes.chart`. -/
def generate_notes_chart (song_name : String) (beat_times : List ℚ) : String :=
  chartHeader song_name ++ "\n[SyncTrack]\n\x7b\n" ++
    String.join (beat_times.map syncLine) ++ "\x7d\n"

/-- The sequence of integer-millisecond timestamps emitted into the sync
track, one per beat, in loop order. -/
def syncTimestamps (beat_times : List ℚ) : List ℤ :=
  beat_times.map (fun t => pyInt (t * 1000))

/-- A sync line as a function of its already-computed timestamp. -/
def msLine (n : ℤ) : String :=
  "  " ++ toString n ++ " = TS " ++ toString n ++ "\n"

/-! ## Descriptor parsing (`content_manager.py`)

`parse_song_ini` (lines 20-52) reads the file with `configparser`.  We
embed the descriptor at the level of its `[song]` section as written in
the file: `songSection = none` models a file without a `[song]` section,
otherwise the list of raw `key = value` lines of that section.

Relevant `configparser` behavior, embedded below:
* `read_file` strips keys and values; in default strict mode a duplicate
  (normalized) option raises `DuplicateOptionError` — caught by the
  function's `try`, which returns the empty dictionary (`Skip`).
* `config.get(section, option, fallback=None)` returns the fallback only
  when the option is absent; otherwise it runs the stored value through
  `BasicInterpolation.before_get`: `%%` unescapes to `%`, `%(key)s` is
  replaced by the (recursively interpolated, depth-limited) value stored
  under `key`, a missing referenced key raises
  `InterpolationMissingOptionError`, and any other `%` raises
  `InterpolationSyntaxError`.  The `fallback` does not catch these.
* The `try` in `parse_song_ini` covers only the `read_file` call, so an
  interpolation error escapes `parse_song_ini` entirely — the outcome is
  neither `Skip` nor a parsed record but a raised exception. -/

/-- Python `str.strip()`: drop leading and trailing whitespace
characters (spelled over the character list so it evaluates by kernel
reduction). -/
def pyStrip (s : String) : String :=
  String.mk (((s.toList.dropWhile Char.isWhitespace).reverse.dropWhile
    Char.isWhitespace).reverse)

/-- Python `str.lower()` on ASCII keys (`configparser.optionxform`). -/
def pyLower (s : String) : String :=
  String.mk (s.toList.map Char.toLower)

/-- A descriptor file's `[song]` section: `none` when the section is
absent, otherwise the raw key/value lines as written in the file. -/
structure SongIni where
  songSection : Option (List (String × String))
deriving DecidableEq, Repr

/-- The raw (untrimmed) value stored under a required or optional key:
dictionary lookup with `configparser`'s key normalization (strip +
lowercase) but without its value stripping. -/
def rawGet (ini : SongIni) (key : String) : Option String :=
  match ini.songSection with
  | none => none
  | some ps => (ps.find? (fun p => pyLower (pyStrip p.1) == key)).map Prod.snd

/-- Dictionary lookup in the `[song]` section as `configparser` stores
it: keys normalized (stripped, lowercased by `optionxform`), values
stripped.  This is both the raw (`raw=True`) lookup of `config.get` and
the variable map handed to `BasicInterpolation`. -/
def sectionLookup (sec : List (String × String)) (key : String) : Option String :=
  (sec.find? (fun p => pyLower (pyStrip p.1) == key)).map (fun p => pyStrip p.2)

/-- Scanner state of `BasicInterpolation._interpolate_some`: plain text,
or inside a `%(`...`)s` reference collecting the key's characters. -/
inductive ScanMode where
  | text
  | ref (keyAcc : List Char)
deriving DecidableEq, Repr

/-- One scan of `BasicInterpolation._interpolate_some` over a value at a
fixed depth (regex `%` handling of CPython): `%%` unescapes to `%`,
`%(key)s` substitutes the stored value of `key` — recursing through
`recurse` when that value itself contains `%` — a missing referenced key
raises `InterpolationMissingOptionError`, and a stray or malformed `%`
raises `InterpolationSyntaxError`. -/
def interpolateScan (recurse : List Char → Except String (List Char))
    (lookup : String → Option String) : ScanMode → List Char → Except String (List Char)
  | .text, [] => .ok []
  | .ref _, [] => .error "InterpolationSyntaxError"
  | .text, c :: rest =>
    if c = '%' then
      match rest with
      | [] => .error "InterpolationSyntaxError"
      | c2 :: rest2 =>
        if c2 = '%' then
          (interpolateScan recurse lookup .text rest2).map (fun t => '%' :: t)
        else if c2 = '(' then
          interpolateScan recurse lookup (.ref []) rest2
        else .error "InterpolationSyntaxError"
    else
      (interpolateScan recurse lookup .text rest).map (fun t => c :: t)
  | .ref acc, c :: rest =>
    if c = ')' then
      match rest with
      | [] => .error "InterpolationSyntaxError"
      | c2 :: rest2 =>
        if c2 = 's' then
          if acc.isEmpty then .error "InterpolationSyntaxError"
          else
            match lookup (pyLower (String.mk acc)) with
            | none => .error "InterpolationMissingOptionError"
            | some v =>
              if v.toList.contains '%' then
                match recurse v.toList with
                | .error e => .error e
                | .ok sub =>
                  (interpolateScan recurse lookup .text rest2).map (fun t => sub ++ t)
              else
                (interpolateScan recurse lookup .text rest2).map (fun t => v.toList ++ t)
        else .error "InterpolationSyntaxError"
    else
      interpolateScan recurse lookup (.ref (acc ++ [c])) rest

/-- The `MAX_INTERPOLATION_DEPTH` constant of `configparser`. -/
def MAX_INTERPOLATION_DEPTH : Nat := 10

/-- Depth-indexed interpolation: the remaining nesting budget; entering
one more substitution level past the limit raises
`InterpolationDepthError`. -/
def interpolateDepth (lookup : String → Option String) :
    Nat → List Char → Except String (List Char)
  | 0, _ => .error "InterpolationDepthError"
  | b + 1, cs => interpolateScan (interpolateDepth lookup b) lookup .text cs

/-- Embeds `BasicInterpolation.before_get` on a stored value of the
`[song]` section. -/
def interpolateValue (sec : List (String × String)) (v : String) : Except String String :=
  (interpolateDepth (sectionLookup sec) MAX_INTERPOLATION_DEPTH v.toList).map
    (fun cs => String.mk cs)

/-- Embeds `config.get("song", key, fallback=None)`: `none` when the
option is absent (the fallback), otherwise the interpolated stored
value; interpolation errors propagate as exceptions. -/
def configGetValue (sec : List (String × String)) (key : String) :
    Except String (Option String) :=
  match sectionLookup sec key with
  | none => .ok none
  | some v => (interpolateValue sec v).map some

/-- Whether a list of normalized keys has a duplicate. -/
def hasDuplicateKey : List String → Bool
  | [] => false
  | k :: rest => rest.contains k || hasDuplicateKey rest

/-- Whether the `[song]` section holds two lines whose normalized keys
coincide — in strict mode `read_file` then raises
`DuplicateOptionError`, which `parse_song_ini`'s `try` turns into the
empty dictionary. -/
def hasDuplicateOption (sec : List (String × String)) : Bool :=
  hasDuplicateKey (sec.map (fun p => pyLower (pyStrip p.1)))

/-- A section is plain when it has no duplicate keys and no `%` in any
stored value, so reading it neither errors at `read_file` nor triggers
interpolation. -/
def plainSection (sec : List (String × String)) : Bool :=
  !hasDuplicateOption sec &&
    sec.all (fun p => !((pyStrip p.2).toList.contains '%'))

/-- The `OPTIONAL_FIELDS` list (content_manager.py lines 12-18). -/
def OPTIONAL_FIELDS : List String :=
  ["genre", "year", "album_track", "playlist_track", "charter", "icon",
   "diff_guitar", "diff_rhythm", "diff_bass", "diff_guitar_coop", "diff_drums",
   "diff_drums_real", "diff_guitarghl", "diff_bassghl", "diff_rhythm_ghl",
   "diff_guitar_coop_ghl", "diff_keys", "song_length", "preview_start_time",
   "video_start_time", "modchart", "loading_phrase", "delay"]

/-- The dictionary `parse_song_ini` returns on success. -/
structure ParsedSong where
  title : String
  artist : String
  album : String
  metadata : List (String × String)
deriving DecidableEq, Repr

/-- Outcome of `parse_song_ini`: `skip` is the empty dictionary (the
soft failure), `parsed` the song record, and `raised` an exception that
escapes the function (its `try` covers only `read_file`). -/
inductive ParseOutcome where
  | skip
  | parsed (ps : ParsedSong)
  | raised (msg : String)
deriving DecidableEq, Repr

/-- The three required `config.get` calls (content_manager.py lines
34-36), evaluated in source order; an interpolation error from any of
them propagates. -/
def requiredGets (sec : List (String × String)) :
    Except String (Option String × Option String × Option String) :=
  match configGetValue sec "name" with
  | .error e => .error e
  | .ok n =>
    match configGetValue sec "artist" with
    | .error e => .error e
    | .ok a =>
      match configGetValue sec "album" with
      | .error e => .error e
      | .ok al => .ok (n, a, al)

/-- The metadata dict comprehension (content_manager.py lines 42-45 and
51): for each recognized field present, `config.get` the interpolated
value (an error at any field propagates) and strip it. -/
def buildMetadata (sec : List (String × String)) :
    List String → Except String (List (String × String))
  | [] => .ok []
  | f :: fs =>
    match sectionLookup sec f with
    | none => buildMetadata sec fs
    | some v =>
      match interpolateValue sec v with
      | .error e => .error e
      | .ok w =>
        match buildMetadata sec fs with
        | .error e => .error e
        | .ok rest => .ok ((f, pyStrip w) :: rest)

/-- Embeds `parse_song_ini(ini_path)` (content_manager.py lines 20-52)
on a structurally well-formed descriptor file.  A missing `[song]`
section or a strict duplicate-option read error yields `skip` (the
empty dictionary); the required lookups mirror
`not name or not artist or not album` on the interpolated values (true
for a missing key — `None` — and for the empty string); the metadata map
keeps exactly the `OPTIONAL_FIELDS` present, with interpolated, stripped
values; an interpolation error in any consulted value is `raised`. -/
def parse_song_ini (ini : SongIni) : ParseOutcome :=
  match ini.songSection with
  | none => .skip
  | some sec =>
    if hasDuplicateOption sec then .skip
    else
      match requiredGets sec with
      | .error e => .raised e
      | .ok (nameV, artistV, albumV) =>
        match nameV, artistV, albumV with
        | some n, some a, some al =>
          if n == "" || a == "" || al == "" then .skip
          else
            match buildMetadata sec OPTIONAL_FIELDS with
            | .error e => .raised e
            | .ok md => .parsed ⟨pyStrip n, pyStrip a, pyStrip al, md⟩
        | _, _, _ => .skip

/-! ## The `songs` table and `add_content_to_db`

`add_content_to_db` (content_manager.py lines 54-84) runs
`SELECT id FROM songs WHERE title = %s AND artist = %s AND album = %s`,
returns the found id if any, otherwise
`INSERT ... RETURNING id` and commits.  The database is embedded as the
list of rows in insertion order plus the serial id counter. -/

/-- One row of the `songs` table. -/
structure SongRow where
  id : ℤ
  title : String
  artist : String
  album : String
  file_path : String
  metadata : List (String × String)
deriving DecidableEq, Repr

/-- The `songs` table: rows in insertion order, plus the next value of
the serial id column. -/
structure SongsDb where
  rows : List SongRow
  nextId : ℤ
deriving DecidableEq, Repr

/-- The `WHERE title = %s AND artist = %s AND album = %s` predicate:
exact (case-sensitive) string equality on the triple. -/
def tripleMatch (title artist album : String) (r : SongRow) : Bool :=
  r.title == title && r.artist == artist && r.album == album

/-- The `SELECT ... fetchone()` step of `add_content_to_db`. -/
def selectByTriple (title artist album : String) (db : SongsDb) : Option SongRow :=
  db.rows.find? (tripleMatch title artist album)

/-- The `INSERT INTO songs ... RETURNING id` step.  Modelled from the
spec: the `songs` table schema (`sql/schema.sql`) is not under `src/`;
§9 of the spec records that the observed check-then-insert path has no
uniqueness constraint, transaction boundary or lock, so the insert
appends unconditionally and the id column is a serial counter. -/
def insertSong (title artist album file_path : String)
    (metadata : List (String × String)) (db : SongsDb) : ℤ × SongsDb :=
  (db.nextId,
   ⟨db.rows ++ [⟨db.nextId, title, artist, album, file_path, metadata⟩],
    db.nextId + 1⟩)

/-- Embeds `add_content_to_db` without a storage-layer failure: check, then
return the existing id or insert. -/
def add_content_to_db (title artist album file_path : String)
    (metadata : List (String × String)) (db : SongsDb) : ℤ × SongsDb :=
  match selectByTriple title artist album db with
  | some r => (r.id, db)
  | none => insertSong title artist album file_path metadata db

/-- Embeds `add_content_to_db` including its `except` clause: a storage-layer
failure (any exception inside the `try`) is caught and the bare sentinel
`-1` is returned; nothing was committed, so the table is unchanged. -/
def add_content_to_db_run (storageFails : Bool) (title artist album file_path : String)
    (metadata : List (String × String)) (db : SongsDb) : ℤ × SongsDb :=
  if storageFails then (-1, db)
  else add_content_to_db title artist album file_path metadata db

/-! ### The check and resolve phases, for the concurrency analysis

`add_content_to_db` issues two separate SQL statements with no lock and
no transaction covering both (the `commit` happens only at the end).
Under concurrent callers the database interleaves the statements; each
single statement is atomic.  `runCheck` is the `SELECT` phase,
`runResolve` the decision plus (possibly) the `INSERT` phase. -/

/-- The `SELECT` phase: the id this call observed, if any. -/
def runCheck (title artist album : String) (db : SongsDb) : Option ℤ :=
  (selectByTriple title artist album db).map (fun r => r.id)

/-- The decision-plus-`INSERT` phase, acting on the check's stale result. -/
def runResolve (title artist album file_path : String)
    (metadata : List (String × String)) (check : Option ℤ) (db : SongsDb) : ℤ × SongsDb :=
  match check with
  | some i => (i, db)
  | none => insertSong title artist album file_path metadata db

/-- Two concurrent `add_content_to_db` calls with the same triple under
the interleaving check₁ ; check₂ ; insert₁ ; insert₂ (each SQL statement
atomic, sequentially consistent database). -/
def raceRun (title artist album fp1 fp2 : String)
    (m1 m2 : List (String × String)) (db : SongsDb) : ℤ × ℤ × SongsDb :=
  let c1 := runCheck title artist album db
  let c2 := runCheck title artist album db
  let r1 := runResolve title artist album fp1 m1 c1 db
  let r2 := runResolve title artist album fp2 m2 c2 r1.2
  (r1.1, r2.1, r2.2)

/-! ## `process_and_store_content` (content_manager.py lines 86-121)

The loop over `temp_extract_dir.rglob("song.ini")`: each descriptor is
parsed — a `Skip` makes the loop `continue`, but an exception raised out
of `parse_song_ini` (line 94, outside any `try` in the loop) propagates
out of the whole function; `artist_dir.mkdir` (line 102) is likewise
outside the per-iteration `try`, so its failure also aborts the run;
then the song folder is moved and `add_content_to_db` called inside the
per-iteration `try`, whose failures only skip the descriptor; only a
non-`-1` id is appended to the result list.  A descriptor found by the
scan is embedded with its parsed section, its `uuid4` folder token, and
which of its fallible steps fail. -/

/-- The `CONTENT_BASE_DIR` default value (content_utils.py line 20). -/
def CONTENT_BASE_DIR : String := "/app/data/clonehero_content"

/-- The destination `artist_dir / f"{title}_{uuid.uuid4().hex[:8]}"` under the songs
folder (content_manager.py lines 101-103). -/
def songFinalDir (artist title token : String) : String :=
  CONTENT_BASE_DIR ++ "/songs/" ++ artist ++ "/" ++ title ++ "_" ++ token

/-- One `song.ini` occurrence inside the extracted archive: its parsed
`[song]` section, the random folder-name token, and whether the
`artist_dir.mkdir` (outside the loop's `try`), the `shutil.move` or the
database insert raises for it. -/
structure Descriptor where
  ini : SongIni
  token : String
  mkdirFails : Bool
  moveFails : Bool
  storeFails : Bool
deriving Repr

/-- One element of the list `process_and_store_content` returns. -/
structure StoredEntry where
  id : ℤ
  title : String
  artist : String
  album : String
  folder_path : String
  metadata : List (String × String)
deriving DecidableEq, Repr

deriving instance DecidableEq for Except

/-- Outcome of one loop iteration: an entry appended, nothing appended,
or an exception escaping the whole loop. -/
inductive StepResult where
  | contributed (e : StoredEntry)
  | skipped
  | aborted (msg : String)
deriving DecidableEq, Repr

/-- One iteration of the `process_and_store_content` loop.  A `raised`
parse and a failing `mkdir` abort (both sit outside the per-iteration
`try`); a `Skip`, a failed move and a failed insert only skip. -/
def processDescriptor (d : Descriptor) (db : SongsDb) : StepResult × SongsDb :=
  match parse_song_ini d.ini with
  | .raised msg => (.aborted msg, db)
  | .skip => (.skipped, db)
  | .parsed ps =>
    if d.mkdirFails then (.aborted "mkdir raised", db)
    else
      let finalDir := songFinalDir ps.artist ps.title d.token
      if d.moveFails then (.skipped, db)
      else
        let r := add_content_to_db_run d.storeFails ps.title ps.artist ps.album
          finalDir ps.metadata db
        if r.1 != -1 then
          (.contributed ⟨r.1, ps.title, ps.artist, ps.album, finalDir, ps.metadata⟩, r.2)
        else (.skipped, r.2)

/-- Embeds `process_and_store_content(temp_extract_dir, content_type)`
over the descriptors found by the `rglob` scan, in scan order.  An abort
discards the collected list (the exception propagates to the caller) but
keeps the database state reached so far (each insert commits on its
own). -/
def process_and_store_content :
    List Descriptor → SongsDb → Except String (List StoredEntry) × SongsDb
  | [], db => (.ok [], db)
  | d :: ds, db =>
    match processDescriptor d db with
    | (.aborted msg, db2) => (.error msg, db2)
    | (.skipped, db2) => process_and_store_content ds db2
    | (.contributed e, db2) =>
      match process_and_store_content ds db2 with
      | (.ok rest, db3) => (.ok (e :: rest), db3)
      | (.error msg, db3) => (.error msg, db3)

/-- A descriptor that merely skips: it parses to `Skip`, or parses fine
and then only its move or its insert fails (both caught by the loop's
`try`). -/
def descriptorSkips (d : Descriptor) : Prop :=
  parse_song_ini d.ini = .skip ∨
    ∃ ps, parse_song_ini d.ini = .parsed ps ∧ d.mkdirFails = false ∧
      (d.moveFails = true ∨ d.storeFails = true)

/-! ## `extract_content` (content_utils.py lines 73-111)

The orchestrating function: for `.zip`/`.rar` it creates the scratch
directory, extracts, deletes the original archive, then stores; for a
plain file it errors for songs and moves the file otherwise; a `finally`
clause removes the scratch directory.  We embed one run as the returned
value together with the ordered trace of filesystem effects. -/

/-- Filesystem effects of one `extract_content` run, in program order. -/
inductive FsEvent where
  /-- Event for `temp_extract_dir.mkdir(parents=True, exist_ok=True)`. -/
  | createdScratch
  /-- one archive member written inside the scratch directory -/
  | wroteScratchEntry (p : List String)
  /-- Event for `os.remove(file_path)` — the uploaded archive deleted. -/
  | removedInput
  /-- Event for `store_extracted_content(...)` being invoked. -/
  | calledStore
  /-- Event for `shutil.move(file_path, dst_path)` — direct single-file storage. -/
  | movedInputTo (dst : String)
  /-- Event for `shutil.rmtree(temp_extract_dir, ignore_errors=True)` in `finally`. -/
  | removedScratch
deriving DecidableEq, Repr

/-- The value `extract_content` returns, up to the payloads that do not
matter here: an `{"error": msg}` dictionary, the list returned by
`store_extracted_content`, or the single-file `{"message", "file"}`
dictionary. -/
inductive IngestResult where
  | error (msg : String)
  | storeResult (entries : List StoredEntry)
  | storedFile (dst : String)
deriving DecidableEq, Repr

/-- Everything outside `extract_content` that decides its control flow:
the input's lowercased extension and name, the archive behind it, the
declared content type, the descriptors the store step will scan, the
database, and whether the store call or the direct move raises. -/
structure IngestEnv where
  fileExt : String
  fileName : String
  archive : Archive
  contentType : String
  descriptors : List Descriptor
  db : SongsDb
  storeRaises : Bool
  moveRaises : Bool
deriving Repr

/-- The `try` body of `extract_content`: result plus effect trace
(without the `finally` cleanup).  An exception raised by a step lands in
the `except` clause, which returns `{"error": str(e)}` — embedded as
`.error` with the trace of the effects that already happened. -/
def extract_content_body (env : IngestEnv) : IngestResult × List FsEvent :=
  if env.fileExt = ".zip" ∨ env.fileExt = ".rar" then
    match extract_archive env.fileExt env.archive with
    | .error msg => (.error msg, [.createdScratch])
    | .success written =>
      let evs := FsEvent.createdScratch ::
        (written.map FsEvent.wroteScratchEntry ++ [.removedInput, .calledStore])
      if env.storeRaises then (.error "store raised", evs)
      else
        match process_and_store_content env.descriptors env.db with
        | (.ok entries, _) => (.storeResult entries, evs)
        | (.error msg, _) => (.error msg, evs)
  else if env.contentType = "songs" then
    (.error "Please upload a .zip or .rar file containing a song.ini", [])
  else if env.moveRaises then (.error "move raised", [])
  else
    (.storedFile (CONTENT_BASE_DIR ++ "/" ++ env.contentType ++ "/" ++ env.fileName),
     [.movedInputTo (CONTENT_BASE_DIR ++ "/" ++ env.contentType ++ "/" ++ env.fileName)])

/-- Embeds `extract_content(file_path, content_type)`: the `try` body followed
by the unconditional `finally: shutil.rmtree(temp_extract_dir,
ignore_errors=True)`, which removes the scratch directory and everything
still inside it on every exit path. -/
def extract_content (env : IngestEnv) : IngestResult × List FsEvent :=
  let r := extract_content_body env
  (r.1, r.2 ++ [.removedScratch])

/-- Effect of one event on "does the scratch directory exist". -/
def scratchStep (live : Bool) (e : FsEvent) : Bool :=
  match e with
  | .createdScratch => true
  | .removedScratch => false
  | _ => live

/-- Whether the scratch directory exists after replaying a trace
(it does not exist before the run). -/
def scratchLive (evs : List FsEvent) : Bool :=
  evs.foldl scratchStep false

/-- Effect of one event on "does the uploaded input file exist". -/
def inputStep (live : Bool) (e : FsEvent) : Bool :=
  match e with
  | .removedInput => false
  | _ => live

/-- Whether the uploaded input file still exists after replaying a trace
(it exists before the run). -/
def inputLive (evs : List FsEvent) : Bool :=
  evs.foldl inputStep true

/-- Predicate `storeAfterRemove evs removed`: every `.calledStore` in `evs` is
preceded by a `.removedInput` (`removed` carries whether one was already
seen). -/
def storeAfterRemove : List FsEvent → Bool → Bool
  | [], _ => true
  | .removedInput :: rest, _ => storeAfterRemove rest true
  | .calledStore :: rest, removed => removed && storeAfterRemove rest removed
  | _ :: rest, removed => storeAfterRemove rest removed

/-! ## Helper lemmas -/

/-- A successful extraction writes exactly the sanitized member names. -/
theorem extract_archive_success_eq (ext : String) (ar : Archive)
    (written : List (List String))
    (h : extract_archive ext ar = .success written) :
    written = ar.entries.map sanitizeMemberPath := by
  unfold extract_archive at h
  split at h
  · cases h; rfl
  · split at h
    · split at h
      · cases h
      · cases h; rfl
    · cases h

/-- Computing `pyInt` on an integer gives that integer. -/
theorem pyInt_intCast (n : ℤ) : pyInt (n : ℚ) = n := by
  simp [pyInt, Int.tdiv_one]

/-- On a nonnegative rational, Python truncation agrees with the floor. -/
theorem pyInt_eq_floor (q : ℚ) (hq : 0 ≤ q) : pyInt q = ⌊q⌋ := by
  rw [Rat.floor_def]
  unfold pyInt
  obtain ⟨m, hm⟩ := Int.eq_ofNat_of_zero_le (Rat.num_nonneg.2 hq)
  rw [hm, ← Int.ofNat_tdiv, Int.ofNat_ediv]

/-- Evaluation of the sync timestamps on the spec's example input
`[0.000, 0.500, 0.5005]`. -/
theorem syncTimestamps_example :
    syncTimestamps [0, 1/2, 1001/2000] = [0, 500, 500] := by
  have e0 : pyInt ((0 : ℚ) * 1000) = 0 := by
    rw [show ((0 : ℚ) * 1000) = ((0 : ℤ) : ℚ) by norm_num, pyInt_intCast]
  have e1 : pyInt ((1 : ℚ)/2 * 1000) = 500 := by
    rw [show ((1 : ℚ)/2 * 1000) = ((500 : ℤ) : ℚ) by norm_num, pyInt_intCast]
  have e2 : pyInt ((1001 : ℚ)/2000 * 1000) = 500 := by
    rw [show ((1001 : ℚ)/2000 * 1000) = (((1001 : ℤ) : ℚ) / ((2 : ℕ) : ℚ)) by norm_num]
    rw [pyInt_eq_floor _ (by positivity), Rat.floor_intCast_div_natCast]
    decide
  simp only [syncTimestamps, List.map_cons, List.map_nil, e0, e1, e2]

/-- Rebuilding a string from its character list is the identity. -/
theorem stringMk_toList (s : String) : String.mk s.toList = s := by
  cases s
  rfl

/-- The stored-value lookup is the raw lookup with the value stripped. -/
theorem sectionLookup_eq_rawGet (ini : SongIni) (sec : List (String × String))
    (k : String) (hsec : ini.songSection = some sec) :
    sectionLookup sec k = (rawGet ini k).map pyStrip := by
  unfold sectionLookup rawGet
  rw [hsec]
  simp only [Option.map_map]
  rfl

/-- A required value is missing-or-blank-after-trim at the raw level iff
the stored lookup returns `none` or the empty string. -/
theorem rawBlank_iff_storedBlank (ini : SongIni) (sec : List (String × String))
    (k : String) (hsec : ini.songSection = some sec) :
    (rawGet ini k = none ∨ ∃ v, rawGet ini k = some v ∧ pyStrip v = "") ↔
    (sectionLookup sec k = none ∨ sectionLookup sec k = some "") := by
  rw [sectionLookup_eq_rawGet ini sec k hsec]
  cases rawGet ini k <;> simp

/-- A text scan over percent-free characters is the identity. -/
theorem interpolateScan_of_free (recurse : List Char → Except String (List Char))
    (lookup : String → Option String) (cs : List Char)
    (h : cs.contains '%' = false) :
    interpolateScan recurse lookup .text cs = .ok cs := by
  induction cs with
  | nil => rfl
  | cons c rest ih =>
    simp only [List.contains_cons, Bool.or_eq_false_iff, beq_eq_false_iff_ne] at h
    unfold interpolateScan
    rw [if_neg (fun hc => h.1 hc.symm)]
    rw [ih (by simpa using h.2)]
    rfl

/-- Interpolating a percent-free value returns it unchanged. -/
theorem interpolateValue_of_free (sec : List (String × String)) (v : String)
    (h : v.toList.contains '%' = false) :
    interpolateValue sec v = .ok v := by
  unfold interpolateValue MAX_INTERPOLATION_DEPTH
  rw [show (10 : Nat) = 9 + 1 from rfl]
  unfold interpolateDepth
  rw [interpolateScan_of_free _ _ _ h]
  cases v
  rfl

/-- In a plain section, every stored value is percent-free. -/
theorem sectionLookup_plain_free (sec : List (String × String)) (k v : String)
    (hplain : plainSection sec = true) (hl : sectionLookup sec k = some v) :
    v.toList.contains '%' = false := by
  have hall := (Bool.and_eq_true .. ▸ hplain).2
  unfold sectionLookup at hl
  rcases hf : sec.find? (fun p => pyLower (pyStrip p.1) == k) with _ | p <;>
    rw [hf] at hl
  · cases hl
  · have hmem := List.mem_of_find?_eq_some hf
    have := List.all_eq_true.1 hall p hmem
    simp only [Option.map_some'] at hl
    cases hl
    simpa using this

/-- In a plain section, `config.get` never raises and returns the stored
value. -/
theorem configGetValue_plain (sec : List (String × String)) (k : String)
    (hplain : plainSection sec = true) :
    configGetValue sec k = .ok (sectionLookup sec k) := by
  unfold configGetValue
  rcases hl : sectionLookup sec k with _ | v
  · rfl
  · dsimp only
    rw [interpolateValue_of_free sec v (sectionLookup_plain_free sec k v hplain hl)]
    rfl

/-- In a plain section, the three required gets succeed with the stored
values. -/
theorem requiredGets_plain (sec : List (String × String))
    (hplain : plainSection sec = true) :
    requiredGets sec = .ok (sectionLookup sec "name", sectionLookup sec "artist",
      sectionLookup sec "album") := by
  unfold requiredGets
  rw [configGetValue_plain sec "name" hplain, configGetValue_plain sec "artist" hplain,
    configGetValue_plain sec "album" hplain]

/-- Membership in the metadata map built by the dict comprehension:
exactly the listed fields present in the section, valued at the trimmed
interpolated stored value. -/
theorem buildMetadata_mem (sec : List (String × String)) :
    ∀ (fs : List String) (md : List (String × String)),
      buildMetadata sec fs = .ok md →
      ∀ k v, ((k, v) ∈ md ↔
        (k ∈ fs ∧ ∃ stored w, sectionLookup sec k = some stored ∧
          interpolateValue sec stored = .ok w ∧ v = pyStrip w)) := by
  intro fs
  induction fs with
  | nil =>
    intro md h k v
    cases h
    simp
  | cons f fs ih =>
    intro md h k v
    unfold buildMetadata at h
    rcases hl : sectionLookup sec f with _ | stored <;> rw [hl] at h <;>
      dsimp only at h
    · rw [ih md h k v]
      constructor
      · rintro ⟨hk, hrest⟩
        exact ⟨List.mem_cons_of_mem f hk, hrest⟩
      · rintro ⟨hk, stored, w, hlk, hi, hv⟩
        rcases List.mem_cons.1 hk with rfl | hk2
        · rw [hl] at hlk; cases hlk
        · exact ⟨hk2, stored, w, hlk, hi, hv⟩
    · rcases hi : interpolateValue sec stored with e | w <;> rw [hi] at h <;>
        dsimp only at h
      · cases h
      · rcases hb : buildMetadata sec fs with e2 | rest <;> rw [hb] at h <;>
          dsimp only at h
        · cases h
        · cases h
          have hrest := ih rest hb
          constructor
          · intro hm
            rcases List.mem_cons.1 hm with heq | hm2
            · cases heq
              exact ⟨List.mem_cons_self f fs, stored, w, hl, hi, rfl⟩
            · rcases (hrest k v).1 hm2 with ⟨hk2, st2, w2, hl2, hi2, hv2⟩
              exact ⟨List.mem_cons_of_mem f hk2, st2, w2, hl2, hi2, hv2⟩
          · rintro ⟨hk, st2, w2, hl2, hi2, hv2⟩
            rcases List.mem_cons.1 hk with rfl | hk2
            · rw [hl] at hl2
              cases hl2
              rw [hi] at hi2
              cases hi2
              exact List.mem_cons.2 (Or.inl (by rw [hv2]))
            · exact List.mem_cons_of_mem _ ((hrest k v).2 ⟨hk2, st2, w2, hl2, hi2, hv2⟩)

/-! ## Claim C1 — archive entries with `..` or absolute paths -/

/-- Claim C1, counterexample: The claim says an archive containing an
entry with a parent-directory segment is rejected wholesale with
`UnsafeArchive` and no entry is written.  On the code, a `.zip` archive
whose only entry is `../evil.txt` extracts successfully — no error of
any kind is returned — and the (sanitized) entry `evil.txt` is written
into the scratch directory. -/
theorem C1_counterexample :
    (EntryPath.mk false ["..", "evil.txt"]).hasParentSegment = true ∧
    extract_archive ".zip" ⟨[⟨false, ["..", "evil.txt"]⟩], false⟩ =
      .success [["evil.txt"]] ∧
    [["evil.txt"]] ≠ ([] : List (List String)) := by
  decide

/-- Claim C1, amended: Archives are never rejected for unsafe entry
paths: `.zip` extraction always succeeds, and each member name is
sanitized — every empty, `.` or `..` component is dropped — so every
path actually written is relative and resolves inside the scratch
directory (no written path retains a parent-directory segment). -/
theorem C1_entries_sanitized_never_rejected (ext : String) (ar : Archive)
    (written : List (List String))
    (h : extract_archive ext ar = .success written) :
    extract_archive ".zip" ar = .success (ar.entries.map sanitizeMemberPath) ∧
    ∀ p ∈ written, ∀ c ∈ p, c ≠ "" ∧ c ≠ "." ∧ c ≠ ".." := by
  refine ⟨by simp [extract_archive], ?_⟩
  rw [extract_archive_success_eq ext ar written h]
  intro p hp c hc
  obtain ⟨e, _, rfl⟩ := List.mem_map.1 hp
  have h2 := (List.mem_filter.1 hc).2
  simp only [Bool.and_eq_true, decide_eq_true_eq] at h2
  exact ⟨h2.1.1, h2.1.2, h2.2⟩

/-- Witness for C1: the amended theorem applied to a concrete archive
holding one absolute entry and one parent-directory entry. -/
theorem C1_witness :
    extract_archive ".zip" (Archive.mk [⟨true, ["etc", "passwd"]⟩, ⟨false, ["..", "x.txt"]⟩] false) =
      .success ((Archive.mk [⟨true, ["etc", "passwd"]⟩, ⟨false, ["..", "x.txt"]⟩] false).entries.map
        sanitizeMemberPath) ∧
    ∀ p ∈ [["etc", "passwd"], ["x.txt"]], ∀ c ∈ p, c ≠ "" ∧ c ≠ "." ∧ c ≠ ".." :=
  C1_entries_sanitized_never_rejected ".zip"
    (Archive.mk [⟨true, ["etc", "passwd"]⟩, ⟨false, ["..", "x.txt"]⟩] false)
    [["etc", "passwd"], ["x.txt"]] (by decide)

/-! ## Claim C2 — sync-track events -/

/-- Claim C2, counterexample: The claim says beat times are rounded to the
nearest millisecond with events closer than 1 ms collapsed, so that
`[0.000, 0.500, 0.5005]` yields exactly the two strictly increasing
events `0` and `500`.  On the code, `generate_notes_chart` emits
`int(t * 1000)` per beat with no collapsing: the same input yields the
three events `0, 500, 500`, with `500` duplicated. -/
theorem C2_counterexample :
    syncTimestamps [0, 1/2, 1001/2000] = [0, 500, 500] ∧
    syncTimestamps [0, 1/2, 1001/2000] ≠ [0, 500] ∧
    (syncTimestamps [0, 1/2, 1001/2000]).count 500 = 2 := by
  refine ⟨syncTimestamps_example, ?_, ?_⟩
  · rw [syncTimestamps_example]; decide
  · rw [syncTimestamps_example]; decide

/-- Claim C2, amended: The sync track contains one event per beat, in
input order, at the beat's time multiplied by 1000 and truncated toward
zero to an integer millisecond; nothing is rounded to nearest, collapsed
or deduplicated, so timestamps need not be strictly increasing — in
particular `[0.000, 0.500, 0.5005]` yields the three events
`0, 500, 500`. -/
theorem C2_sync_events_truncated_uncollapsed (name : String) (bts : List ℚ) :
    generate_notes_chart name bts =
      chartHeader name ++ "\n[SyncTrack]\n\x7b\n" ++
        String.join ((syncTimestamps bts).map msLine) ++ "\x7d\n" ∧
    (syncTimestamps bts).length = bts.length ∧
    syncTimestamps [0, 1/2, 1001/2000] = [0, 500, 500] := by
  refine ⟨?_, by simp [syncTimestamps], syncTimestamps_example⟩
  simp only [generate_notes_chart, syncTimestamps, List.map_map]
  rfl

/-! ## Claim C3 — when parsing yields `Skip` -/

/-- Claim C3, counterexample: the claim says parsing yields `Skip`
exactly when a required key is missing or blank after trimming.  On the
code, a descriptor whose `[song]` section repeats the `genre` key yields
`Skip` although `name`, `artist` and `album` are all present and
non-blank (strict `read_file` raises `DuplicateOptionError`, which the
function's `try` converts to the empty dictionary); and a descriptor
whose required `name` value contains a stray `%` makes `config.get`
raise an interpolation error out of `parse_song_ini` — neither `Skip`
nor a successful parse. -/
theorem C3_counterexample :
    parse_song_ini ⟨some [("name", "A"), ("artist", "B"), ("album", "C"),
        ("genre", "X"), ("genre", "Y")]⟩ = .skip ∧
    rawGet ⟨some [("name", "A"), ("artist", "B"), ("album", "C"),
        ("genre", "X"), ("genre", "Y")]⟩ "name" = some "A" ∧
    rawGet ⟨some [("name", "A"), ("artist", "B"), ("album", "C"),
        ("genre", "X"), ("genre", "Y")]⟩ "artist" = some "B" ∧
    rawGet ⟨some [("name", "A"), ("artist", "B"), ("album", "C"),
        ("genre", "X"), ("genre", "Y")]⟩ "album" = some "C" ∧
    parse_song_ini ⟨some [("name", "100% rock"), ("artist", "B"), ("album", "C")]⟩ =
      .raised "InterpolationSyntaxError" := by
  decide

/-- Claim C3, amended: for a descriptor whose `[song]` section is plain
— no duplicate keys and no `%` in any stored value — parsing yields
`Skip` exactly when a required key (`name`, `artist`, `album`) is
missing or its raw value is blank after trimming whitespace; moreover a
`[song]` section with a duplicate key always yields `Skip` (the strict
read error is caught), a file without a `[song]` section yields `Skip`,
and a required value consisting only of whitespace is skipped, since
`configparser` stores it stripped and the emptiness check then fires.
(Values containing `%` instead undergo interpolation, which can raise
out of parsing — see the counterexample.) -/
theorem C3_skip_iff_required_missing_or_blank_on_plain (ini : SongIni)
    (sec : List (String × String)) (hsec : ini.songSection = some sec)
    (hplain : plainSection sec = true) :
    (parse_song_ini ini = .skip ↔
      ∃ k ∈ ["name", "artist", "album"],
        rawGet ini k = none ∨ ∃ v, rawGet ini k = some v ∧ pyStrip v = "") ∧
    (∀ sec2 : List (String × String), hasDuplicateOption sec2 = true →
      parse_song_ini ⟨some sec2⟩ = .skip) ∧
    (∀ ini2 : SongIni, ini2.songSection = none → parse_song_ini ini2 = .skip) ∧
    parse_song_ini ⟨some [("name", "   "), ("artist", "Band"), ("album", "Demo")]⟩ =
      .skip := by
  have hdup : hasDuplicateOption sec = false := by
    have := (Bool.and_eq_true .. ▸ hplain).1
    simpa using this
  refine ⟨?_, ?_, ?_, by decide⟩
  · simp only [List.mem_cons, List.not_mem_nil, or_false, exists_eq_or_imp,
      exists_eq_left]
    rw [rawBlank_iff_storedBlank ini sec _ hsec, rawBlank_iff_storedBlank ini sec _ hsec,
      rawBlank_iff_storedBlank ini sec _ hsec]
    unfold parse_song_ini
    rw [hsec]
    dsimp only
    rw [hdup]
    simp only [Bool.false_eq_true, if_false]
    rw [requiredGets_plain sec hplain]
    dsimp only
    rcases h1 : sectionLookup sec "name" with _ | n <;>
      rcases h2 : sectionLookup sec "artist" with _ | a <;>
        rcases h3 : sectionLookup sec "album" with _ | al <;>
          try simp
    rcases hb : buildMetadata sec OPTIONAL_FIELDS with e | md <;>
      by_cases hn : n = "" <;> by_cases ha : a = "" <;> by_cases hal : al = "" <;>
        simp [hn, ha, hal]
  · intro sec2 hd
    unfold parse_song_ini
    simp [hd]
  · intro ini2 h2
    unfold parse_song_ini
    rw [h2]

/-- Witness for C3: the amended theorem applied to a concrete plain
descriptor; the projected conclusion is the whitespace-only-value skip. -/
theorem C3_witness :
    parse_song_ini ⟨some [("name", "   "), ("artist", "Band"), ("album", "Demo")]⟩ =
      .skip :=
  (C3_skip_iff_required_missing_or_blank_on_plain
    ⟨some [("name", "A"), ("artist", "B"), ("album", "C")]⟩
    [("name", "A"), ("artist", "B"), ("album", "C")] rfl (by decide)).2.2.2

/-! ## Claim C4 — which optional keys and values reach the metadata map -/

/-- Claim C4, counterexample: the claim says the metadata map contains
every optional key of the `[song]` section, unrecognized keys included.
On the code, a descriptor carrying the unrecognized key `frets` parses
to a metadata map holding only `genre` — the `frets` pair is dropped,
not preserved. -/
theorem C4_counterexample :
    parse_song_ini ⟨some [("name", "Test"), ("artist", "Band"), ("album", "Demo"),
        ("genre", "Rock"), ("frets", "5")]⟩ =
      .parsed ⟨"Test", "Band", "Demo", [("genre", "Rock")]⟩ ∧
    rawGet ⟨some [("name", "Test"), ("artist", "Band"), ("album", "Demo"),
        ("genre", "Rock"), ("frets", "5")]⟩ "frets" = some "5" ∧
    ("frets", "5") ∉ ([("genre", "Rock")] : List (String × String)) := by
  decide

/-- Claim C4, amended: for every successfully parsed descriptor, the
metadata map contains exactly the keys of the fixed `OPTIONAL_FIELDS`
list that are present in the `[song]` section, each valued at the
trimmed result of `BasicInterpolation` on the stored value — so `%%`
is unescaped, `%(key)s` references are substituted, a stray `%` makes
the parse raise rather than succeed, and only percent-free values are
copied verbatim; every unrecognized key is dropped.  The spec's example
descriptor `name=Test, artist=Band, album=Demo, genre=Rock` yields
exactly the metadata map `{genre: "Rock"}`. -/
theorem C4_metadata_keeps_exactly_recognized_keys (ini : SongIni) (ps : ParsedSong)
    (sec : List (String × String)) (hsec : ini.songSection = some sec)
    (h : parse_song_ini ini = .parsed ps) :
    (∀ k v, (k, v) ∈ ps.metadata ↔
      (k ∈ OPTIONAL_FIELDS ∧
        ∃ stored w, sectionLookup sec k = some stored ∧
          interpolateValue sec stored = .ok w ∧ v = pyStrip w)) ∧
    parse_song_ini ⟨some [("name", "Test"), ("artist", "Band"), ("album", "Demo"),
        ("genre", "Rock")]⟩ =
      .parsed ⟨"Test", "Band", "Demo", [("genre", "Rock")]⟩ ∧
    parse_song_ini ⟨some [("name", "E"), ("artist", "B"), ("album", "D"),
        ("genre", "90%% done")]⟩ =
      .parsed ⟨"E", "B", "D", [("genre", "90% done")]⟩ ∧
    parse_song_ini ⟨some [("name", "Test"), ("artist", "B"), ("album", "D"),
        ("genre", "%(name)s rules")]⟩ =
      .parsed ⟨"Test", "B", "D", [("genre", "Test rules")]⟩ ∧
    parse_song_ini ⟨some [("name", "Test"), ("artist", "B"), ("album", "D"),
        ("genre", "100% rock")]⟩ =
      .raised "InterpolationSyntaxError" := by
  refine ⟨?_, by decide, by decide, by decide, by decide⟩
  have hmeta : buildMetadata sec OPTIONAL_FIELDS = .ok ps.metadata := by
    unfold parse_song_ini at h
    rw [hsec] at h
    dsimp only at h
    by_cases hd : hasDuplicateOption sec = true
    · rw [hd] at h; cases h
    · rw [Bool.not_eq_true] at hd
      rw [hd] at h
      simp only [Bool.false_eq_true, if_false] at h
      rcases hr : requiredGets sec with e | ⟨nameV, artistV, albumV⟩ <;> rw [hr] at h
      · cases h
      · rcases nameV with _ | n <;> rcases artistV with _ | a <;> rcases albumV with _ | al <;>
          try cases h
        dsimp only at h
        by_cases hc : (n == "" || a == "" || al == "") = true
        · rw [if_pos hc] at h; cases h
        · rw [if_neg hc] at h
          rcases hb : buildMetadata sec OPTIONAL_FIELDS with e | md <;> rw [hb] at h
          · cases h
          · cases h; rfl
  exact buildMetadata_mem sec OPTIONAL_FIELDS ps.metadata hmeta

/-- Witness for C4: the amended theorem applied to the spec's example
descriptor; the projected conclusion is that example's parse. -/
theorem C4_witness :
    parse_song_ini ⟨some [("name", "Test"), ("artist", "Band"), ("album", "Demo"),
        ("genre", "Rock")]⟩ =
      .parsed ⟨"Test", "Band", "Demo", [("genre", "Rock")]⟩ :=
  (C4_metadata_keeps_exactly_recognized_keys
    ⟨some [("name", "Test"), ("artist", "Band"), ("album", "Demo"), ("genre", "Rock"),
       ("frets", "5")]⟩
    ⟨"Test", "Band", "Demo", [("genre", "Rock")]⟩
    [("name", "Test"), ("artist", "Band"), ("album", "Demo"), ("genre", "Rock"),
       ("frets", "5")] rfl (by decide)).2.1

/-! ## Claims C5 and C6 — dedup on the (title, artist, album) triple -/

/-- When the `SELECT` finds a row, `add_content_to_db` returns its id
and leaves the table unchanged. -/
theorem add_content_found {t a al fp : String} {m : List (String × String)}
    {db : SongsDb} {r : SongRow} (hr : selectByTriple t a al db = some r) :
    add_content_to_db t a al fp m db = (r.id, db) := by
  unfold add_content_to_db
  rw [hr]

/-- When the `SELECT` finds nothing, `add_content_to_db` inserts. -/
theorem add_content_notfound {t a al fp : String} {m : List (String × String)}
    {db : SongsDb} (hr : selectByTriple t a al db = none) :
    add_content_to_db t a al fp m db = insertSong t a al fp m db := by
  unfold add_content_to_db
  rw [hr]

/-- After inserting a previously absent triple, selecting that triple
finds exactly the inserted row. -/
theorem select_after_insert {t a al fp : String} {m : List (String × String)}
    {db : SongsDb} (hr : selectByTriple t a al db = none) :
    selectByTriple t a al (insertSong t a al fp m db).2 =
      some ⟨db.nextId, t, a, al, fp, m⟩ := by
  unfold selectByTriple at hr ⊢
  unfold insertSong
  rw [List.find?_append, hr]
  simp [List.find?, tripleMatch]

/-- Claim C5: A store call whose exact (case-sensitive) triple matches an
existing row returns that row's id and inserts nothing, and calling
twice in sequence with the same triple returns the same identifier both
times. -/
theorem C5_store_dedup_idempotent (t a al fp fp2 : String)
    (m m2 : List (String × String)) (db : SongsDb) :
    (∀ r, selectByTriple t a al db = some r →
      add_content_to_db t a al fp m db = (r.id, db)) ∧
    (add_content_to_db t a al fp2 m2 (add_content_to_db t a al fp m db).2).1 =
      (add_content_to_db t a al fp m db).1 := by
  refine ⟨fun r hr => add_content_found hr, ?_⟩
  rcases hr : selectByTriple t a al db with _ | r
  · rw [add_content_notfound hr, add_content_found (select_after_insert hr)]
    rfl
  · rw [add_content_found hr]
    dsimp only
    rw [add_content_found hr]

/-- Witness for C5: a database already holding the triple; both the
dedup return and the idempotence conclusion at that input. -/
theorem C5_witness :
    add_content_to_db "T" "A" "L" "p" [] ⟨[⟨7, "T", "A", "L", "q", []⟩], 8⟩ =
      (7, ⟨[⟨7, "T", "A", "L", "q", []⟩], 8⟩) ∧
    (add_content_to_db "T" "A" "L" "p2" []
        (add_content_to_db "T" "A" "L" "p" [] ⟨[⟨7, "T", "A", "L", "q", []⟩], 8⟩).2).1 =
      (add_content_to_db "T" "A" "L" "p" [] ⟨[⟨7, "T", "A", "L", "q", []⟩], 8⟩).1 :=
  ⟨(C5_store_dedup_idempotent "T" "A" "L" "p" "p2" [] []
      ⟨[⟨7, "T", "A", "L", "q", []⟩], 8⟩).1 ⟨7, "T", "A", "L", "q", []⟩ (by decide),
   (C5_store_dedup_idempotent "T" "A" "L" "p" "p2" [] []
      ⟨[⟨7, "T", "A", "L", "q", []⟩], 8⟩).2⟩

/-- Claim C6, counterexample: The claim says N concurrent store calls on
the same triple insert exactly one record, enforced by a uniqueness
guarantee or lock.  The code has neither: its two SQL statements are
separate and uncovered, and under the interleaving
check₁ ; check₂ ; insert₁ ; insert₂ starting from an empty table both
calls insert, yielding two rows with the same triple and two different
identifiers (1 and 2).  The third conjunct checks the two phases really
are `add_content_to_db` at this input when run back-to-back. -/
theorem C6_counterexample :
    (raceRun "T" "A" "L" "p1" "p2" [] [] ⟨[], 1⟩).2.2.rows.countP
      (tripleMatch "T" "A" "L") = 2 ∧
    (raceRun "T" "A" "L" "p1" "p2" [] [] ⟨[], 1⟩).1 ≠
      (raceRun "T" "A" "L" "p1" "p2" [] [] ⟨[], 1⟩).2.1 ∧
    add_content_to_db "T" "A" "L" "p1" [] ⟨[], 1⟩ =
      runResolve "T" "A" "L" "p1" [] (runCheck "T" "A" "L" ⟨[], 1⟩) ⟨[], 1⟩ := by
  decide

/-- Claim C6, amended: `add_content_to_db` is exactly an unsynchronized
check phase followed by a resolve phase; sequential calls dedup, but
when the triple is absent, the interleaving of two concurrent calls
that runs both checks before both inserts adds two matching rows and
returns two distinct identifiers — no storage-level uniqueness
guarantee or lock exists to prevent it. -/
theorem C6_race_inserts_two_rows (t a al fp1 fp2 : String)
    (m1 m2 : List (String × String)) (db : SongsDb)
    (h : selectByTriple t a al db = none) :
    (∀ fp m, add_content_to_db t a al fp m db =
      runResolve t a al fp m (runCheck t a al db) db) ∧
    (raceRun t a al fp1 fp2 m1 m2 db).2.2.rows.countP (tripleMatch t a al) =
      db.rows.countP (tripleMatch t a al) + 2 ∧
    (raceRun t a al fp1 fp2 m1 m2 db).1 ≠ (raceRun t a al fp1 fp2 m1 m2 db).2.1 := by
  have hrace : raceRun t a al fp1 fp2 m1 m2 db =
      (db.nextId, db.nextId + 1,
       ⟨(db.rows ++ [⟨db.nextId, t, a, al, fp1, m1⟩]) ++
          [⟨db.nextId + 1, t, a, al, fp2, m2⟩],
        db.nextId + 1 + 1⟩) := by
    unfold raceRun runCheck runResolve insertSong
    rw [h]
    rfl
  refine ⟨?_, ?_, ?_⟩
  · intro fp m
    unfold add_content_to_db runResolve runCheck
    rcases hs : selectByTriple t a al db with _ | r <;> rfl
  · rw [hrace]
    dsimp only
    rw [List.countP_append, List.countP_append]
    have h1 : List.countP (tripleMatch t a al)
        [⟨db.nextId, t, a, al, fp1, m1⟩] = 1 := by
      simp [List.countP_cons, List.countP_nil, tripleMatch]
    have h2 : List.countP (tripleMatch t a al)
        [⟨db.nextId + 1, t, a, al, fp2, m2⟩] = 1 := by
      simp [List.countP_cons, List.countP_nil, tripleMatch]
    rw [h1, h2]
  · rw [hrace]
    dsimp only
    omega

/-- Witness for C6: the amended theorem applied to the empty table. -/
theorem C6_witness :
    (raceRun "T" "A" "L" "p1" "p2" [] [] ⟨[], 1⟩).2.2.rows.countP
      (tripleMatch "T" "A" "L") =
      (SongsDb.mk [] 1).rows.countP (tripleMatch "T" "A" "L") + 2 :=
  (C6_race_inserts_two_rows "T" "A" "L" "p1" "p2" [] [] ⟨[], 1⟩ (by decide)).2.1

/-! ## Claims C7 and C9 — per-descriptor isolation and failure reporting -/

/-- One unfolding step of the processing loop. -/
theorem process_cons (d : Descriptor) (ds : List Descriptor) (db : SongsDb) :
    process_and_store_content (d :: ds) db =
      match processDescriptor d db with
      | (.aborted msg, db2) => (.error msg, db2)
      | (.skipped, db2) => process_and_store_content ds db2
      | (.contributed e, db2) =>
        match process_and_store_content ds db2 with
        | (.ok rest, db3) => (.ok (e :: rest), db3)
        | (.error msg, db3) => (.error msg, db3) := rfl

/-- A descriptor that merely skips contributes nothing and leaves the
database untouched. -/
theorem processDescriptor_of_skips {d : Descriptor} (db : SongsDb)
    (hf : descriptorSkips d) :
    processDescriptor d db = (.skipped, db) := by
  unfold processDescriptor
  rcases hf with hp | ⟨ps, hp, hmk, hmv⟩
  · rw [hp]
  · rw [hp, hmk]
    rcases hmv with hm | hs
    · simp [hm]
    · by_cases hm2 : d.moveFails = true <;> simp [hm2, hs, add_content_to_db_run]

/-- A merely-skipping descriptor drops out of the loop. -/
theorem process_cons_of_skips {d : Descriptor} (ds : List Descriptor)
    (db : SongsDb) (hf : descriptorSkips d) :
    process_and_store_content (d :: ds) db = process_and_store_content ds db := by
  rw [process_cons, processDescriptor_of_skips db hf]

/-- A descriptor whose parse raises aborts the whole run. -/
theorem process_cons_of_raised {d : Descriptor} (ds : List Descriptor)
    (db : SongsDb) (msg : String) (hr : parse_song_ini d.ini = .raised msg) :
    process_and_store_content (d :: ds) db = (.error msg, db) := by
  have hpd : processDescriptor d db = (.aborted msg, db) := by
    unfold processDescriptor
    rw [hr]
  rw [process_cons, hpd]

/-- Claim C7, counterexample: the claim says a descriptor that fails to
parse or store never aborts its siblings.  On the code, a sibling
descriptor with a stray `%` in a value (`loading_phrase = 100% rock`)
makes `config.get` raise out of `parse_song_ini` — which is called
outside any `try` of the loop — so the whole run returns an error and no
sibling is processed, although the other descriptor alone stores
fine. -/
theorem C7_counterexample :
    parse_song_ini ⟨some [("name", "A"), ("artist", "B"), ("album", "C"),
        ("loading_phrase", "100% rock")]⟩ = .raised "InterpolationSyntaxError" ∧
    process_and_store_content
      [⟨⟨some [("name", "A"), ("artist", "B"), ("album", "C"),
          ("loading_phrase", "100% rock")]⟩, "t1", false, false, false⟩,
       ⟨⟨some [("name", "G"), ("artist", "H"), ("album", "I")]⟩, "tk", false, false, false⟩]
      ⟨[], 1⟩ = (.error "InterpolationSyntaxError", ⟨[], 1⟩) ∧
    (process_and_store_content
      [⟨⟨some [("name", "G"), ("artist", "H"), ("album", "I")]⟩, "tk", false, false, false⟩]
      ⟨[], 1⟩).1 =
      .ok [⟨1, "G", "H", "I", songFinalDir "H" "G" "tk", []⟩] := by
  decide

/-- Claim C7, amended: descriptors are processed with partial
independence.  A descriptor that parses to `Skip`, or whose folder move
or database insert fails (both caught by the per-iteration `try`), never
changes the outcome for its siblings; an empty scan yields the empty
list (not an error), as does a scan of only such descriptors.  But a
descriptor whose parse raises — an interpolation error escaping
`parse_song_ini`, which the loop calls outside any `try` — aborts the
whole run with an error, discarding all siblings, and a failing
`artist_dir.mkdir` (also outside the `try`) aborts likewise. -/
theorem C7_skip_failures_isolated_raises_abort (pre post : List Descriptor)
    (d : Descriptor) (db : SongsDb) (hf : descriptorSkips d) :
    process_and_store_content (pre ++ d :: post) db =
      process_and_store_content (pre ++ post) db ∧
    process_and_store_content [] db = (.ok [], db) ∧
    (∀ ds, (∀ x ∈ ds, descriptorSkips x) →
      process_and_store_content ds db = (.ok [], db)) ∧
    (∀ (d2 : Descriptor) (msg : String) (ds : List Descriptor),
      parse_song_ini d2.ini = .raised msg →
      process_and_store_content (d2 :: ds) db = (.error msg, db)) ∧
    (∀ (d3 : Descriptor) (ps : ParsedSong) (ds : List Descriptor),
      parse_song_ini d3.ini = .parsed ps → d3.mkdirFails = true →
      process_and_store_content (d3 :: ds) db = (.error "mkdir raised", db)) := by
  refine ⟨?_, rfl, ?_, ?_, ?_⟩
  · induction pre generalizing db with
    | nil =>
      simp only [List.nil_append]
      exact process_cons_of_skips post db hf
    | cons p pre ih =>
      simp only [List.cons_append]
      rw [process_cons, process_cons]
      rcases hp : processDescriptor p db with ⟨res, db2⟩
      cases res with
      | aborted msg => rfl
      | skipped => exact ih db2
      | contributed e => dsimp only; rw [ih db2]
  · intro ds hall
    induction ds with
    | nil => rfl
    | cons x ds ih =>
      rw [process_cons_of_skips ds db (hall x (List.mem_cons_self x ds))]
      exact ih (fun y hy => hall y (List.mem_cons_of_mem x hy))
  · intro d2 msg ds hr
    exact process_cons_of_raised ds db msg hr
  · intro d3 ps ds hp hmk
    have hpd : processDescriptor d3 db = (.aborted "mkdir raised", db) := by
      unfold processDescriptor
      rw [hp]
      simp [hmk]
    rw [process_cons, hpd]

/-- Witness for C7: a one-descriptor archive whose descriptor has no
`[song]` section processes like an empty one. -/
theorem C7_witness :
    process_and_store_content [⟨⟨none⟩, "tk", false, false, false⟩] ⟨[], 1⟩ =
      process_and_store_content [] ⟨[], 1⟩ :=
  (C7_skip_failures_isolated_raises_abort [] [] ⟨⟨none⟩, "tk", false, false, false⟩
    ⟨[], 1⟩ (Or.inl rfl)).1

/-- Claim C9, counterexample: the claim says a store-layer failure is
surfaced to the caller as a structured error.  On the code,
`add_content_to_db` catches the exception and returns the bare sentinel
`-1`, and `process_and_store_content` then silently drops the song: the
returned value for a one-song archive whose insert fails is the plain
empty list, carrying no error kind or message. -/
theorem C9_counterexample :
    add_content_to_db_run true "Test" "Band" "Demo" "p" [] ⟨[], 1⟩ = (-1, ⟨[], 1⟩) ∧
    process_and_store_content
      [⟨⟨some [("name", "Test"), ("artist", "Band"), ("album", "Demo")]⟩,
        "tk", false, false, true⟩]
      ⟨[], 1⟩ = (.ok [], ⟨[], 1⟩) := by
  decide

/-- Claim C9, amended: a store call that fails at the storage layer
returns the bare sentinel `-1`, and the ingestion result silently omits
that song — the returned list is exactly what it would have been without
the failing descriptor; no structured error reaches the caller. -/
theorem C9_storage_failure_sentinel_and_silent (t a al fp : String)
    (m : List (String × String)) (db : SongsDb) (d : Descriptor)
    (ds : List Descriptor) (ps : ParsedSong)
    (hp : parse_song_ini d.ini = .parsed ps) (hmk : d.mkdirFails = false)
    (hsf : d.storeFails = true) :
    add_content_to_db_run true t a al fp m db = (-1, db) ∧
    process_and_store_content (d :: ds) db = process_and_store_content ds db :=
  ⟨rfl, process_cons_of_skips ds db (Or.inr ⟨ps, hp, hmk, Or.inr hsf⟩)⟩

/-- Witness for C9: a failing insert on a concrete valid descriptor. -/
theorem C9_witness :
    add_content_to_db_run true "T" "A" "L" "p" [] ⟨[], 5⟩ = (-1, ⟨[], 5⟩) ∧
    process_and_store_content
      [⟨⟨some [("name", "N"), ("artist", "R"), ("album", "M")]⟩, "tk", false, false, true⟩]
      ⟨[], 5⟩ =
      process_and_store_content [] ⟨[], 5⟩ :=
  C9_storage_failure_sentinel_and_silent "T" "A" "L" "p" [] ⟨[], 5⟩
    ⟨⟨some [("name", "N"), ("artist", "R"), ("album", "M")]⟩, "tk", false, false, true⟩
    [] ⟨"N", "R", "M", []⟩ (by decide) rfl rfl

/-! ## Claims C8 and C10 — cleanup and consumption of the input -/

/-- Appending the `finally` cleanup makes the scratch directory dead, no
matter what the body did. -/
theorem scratchLive_concat_cleanup (evs : List FsEvent) :
    scratchLive (evs ++ [FsEvent.removedScratch]) = false := by
  unfold scratchLive
  rw [List.foldl_append]
  rfl

/-- Claim C8: `extract_content` appends the `finally` cleanup to every
exit path — success, extraction error, unsupported input, store failure,
move failure — so after any run the scratch directory (with anything
still inside it) is gone. -/
theorem C8_scratch_removed_on_every_path (env : IngestEnv) :
    (extract_content env).2 =
      (extract_content_body env).2 ++ [FsEvent.removedScratch] ∧
    scratchLive (extract_content env).2 = false := by
  exact ⟨rfl, scratchLive_concat_cleanup _⟩

/-- Writing archive members into the scratch directory does not touch
the uploaded input file. -/
theorem foldl_inputStep_wrote (l : List (List String)) (b : Bool) :
    (l.map FsEvent.wroteScratchEntry).foldl inputStep b = b := by
  induction l with
  | nil => rfl
  | cons x xs ih => exact ih

/-- Writing archive members into the scratch directory is irrelevant to
the remove-before-store ordering. -/
theorem storeAfterRemove_wrote (l : List (List String)) (rest : List FsEvent)
    (b : Bool) :
    storeAfterRemove (l.map FsEvent.wroteScratchEntry ++ rest) b =
      storeAfterRemove rest b := by
  induction l with
  | nil => rfl
  | cons x xs ih => exact ih

/-- On the archive branch with a successful extraction, the body's trace
is: create scratch, write the members, remove the input, call store. -/
theorem extract_content_body_success (env : IngestEnv) (written : List (List String))
    (hext : env.fileExt = ".zip" ∨ env.fileExt = ".rar")
    (hsucc : extract_archive env.fileExt env.archive = .success written) :
    (extract_content_body env).2 =
      FsEvent.createdScratch :: (written.map FsEvent.wroteScratchEntry ++
        [FsEvent.removedInput, FsEvent.calledStore]) := by
  unfold extract_content_body
  rw [if_pos hext, hsucc]
  by_cases hs : env.storeRaises = true
  · simp [hs]
  · rcases hp : process_and_store_content env.descriptors env.db with ⟨r, db2⟩
    cases r <;> simp [hs, hp]

/-- Claim C10: Whenever extraction of a `.zip`/`.rar` input succeeds, the
original uploaded archive is removed from disk, and the removal comes
before the store step in the effect trace — so the input never survives
an ingestion whose extraction succeeded, even if storing then fails. -/
theorem C10_input_archive_consumed (env : IngestEnv) (written : List (List String))
    (hext : env.fileExt = ".zip" ∨ env.fileExt = ".rar")
    (hsucc : extract_archive env.fileExt env.archive = .success written) :
    inputLive (extract_content env).2 = false ∧
    storeAfterRemove (extract_content env).2 false = true := by
  have hbody := extract_content_body_success env written hext hsucc
  constructor
  · show inputLive ((extract_content_body env).2 ++ [FsEvent.removedScratch]) = false
    rw [hbody]
    show inputLive ((written.map FsEvent.wroteScratchEntry ++
      [FsEvent.removedInput, FsEvent.calledStore]) ++ [FsEvent.removedScratch]) = false
    unfold inputLive
    rw [List.append_assoc, List.foldl_append, foldl_inputStep_wrote]
    rfl
  · show storeAfterRemove ((extract_content_body env).2 ++ [FsEvent.removedScratch])
      false = true
    rw [hbody]
    show storeAfterRemove ((written.map FsEvent.wroteScratchEntry ++
      [FsEvent.removedInput, FsEvent.calledStore]) ++ [FsEvent.removedScratch])
      false = true
    rw [List.append_assoc, storeAfterRemove_wrote]
    rfl

/-- Witness for C10: a concrete `.zip` upload with one entry. -/
theorem C10_witness :
    inputLive (extract_content ⟨".zip", "a.zip", ⟨[⟨false, ["song.ini"]⟩], false⟩,
      "songs", [], ⟨[], 1⟩, false, false⟩).2 = false ∧
    storeAfterRemove (extract_content ⟨".zip", "a.zip", ⟨[⟨false, ["song.ini"]⟩], false⟩,
      "songs", [], ⟨[], 1⟩, false, false⟩).2 false = true :=
  C10_input_archive_consumed
    ⟨".zip", "a.zip", ⟨[⟨false, ["song.ini"]⟩], false⟩, "songs", [], ⟨[], 1⟩, false, false⟩
    [["song.ini"]] (Or.inl rfl) (by decide)

end CloneHero
